import Mathlib

/-!
Verification of the galactic-parallax image-search aggregation engine.

This file shallowly embeds the core of the repository (the aggregation,
caching and pagination-normalization engine) in Lean 4 and proves the
specification claims about it.

Conventions of the embedding:
* JavaScript numbers that are only ever non-negative integers in the code
  (counts, start indices, pixel dimensions, timestamps in milliseconds)
  are modelled as `Nat`.
* JavaScript truthiness on a number is `≠ 0`, on a string `≠ ""`, on an
  object/array `Option.isSome`.
* An optional field `x?: T` is `Option T`.
* ISO timestamp strings are modelled as `Nat` milliseconds (the code only
  ever compares them through `Date` arithmetic).
* `Map<string, V>` is an association list with unique keys; `Map.get` is
  `find?` on the key.
-/

namespace GalacticParallax

/-- JS `v || d` for an optional number: `0` and `undefined` are falsy. -/
def jsOrNat (v : Option Nat) (d : Nat) : Nat :=
  match v with
  | some n => if n ≠ 0 then n else d
  | none => d

/-- JS `v && v > 0 ? v : d` for an optional number
(`aggregatedSearchService.ts` lines 60-61 and 266). -/
def jsPosOrNat (v : Option Nat) (d : Nat) : Nat :=
  match v with
  | some n => if n ≠ 0 ∧ 0 < n then n else d
  | none => d

/-- JS `v || d` for an optional string: `""` and `undefined` are falsy. -/
def jsOrStr (v : Option String) (d : String) : String :=
  match v with
  | some s => if s ≠ "" then s else d
  | none => d

/-- `Math.ceil(a / b)` on non-negative integers with `b > 0`. -/
def ceilDiv (a b : Nat) : Nat := (a + b - 1) / b

/-! JS string primitives, implemented over the character list of the
string (so that concrete instances evaluate inside the kernel). -/

/-- JS `String.prototype.trim`. -/
def jsTrim (s : String) : String :=
  { data := ((s.data.dropWhile Char.isWhitespace).reverse.dropWhile
      Char.isWhitespace).reverse }

/-- JS `String.prototype.toLowerCase` (ASCII case folding). -/
def jsToLower (s : String) : String :=
  { data := s.data.map Char.toLower }

/-- JS `String.prototype.startsWith`. -/
def jsStartsWith (s pre : String) : Bool :=
  pre.data.isPrefixOf s.data

/-- JS `String.prototype.endsWith`. -/
def jsEndsWith (s suf : String) : Bool :=
  suf.data.isSuffixOf s.data

/-- Split a character list at a separator character
(JS `String.prototype.split` with a one-character separator). -/
def splitOnChar (sep : Char) : List Char → List (List Char)
  | [] => [[]]
  | c :: rest =>
    match splitOnChar sep rest with
    | [] => [[c]]
    | h :: t => if c = sep then [] :: h :: t else (c :: h) :: t

/-- Split a character list at every character satisfying `p`
(JS `split(/\s+/)` up to empty pieces, which every caller filters out). -/
def splitOnPred (p : Char → Bool) : List Char → List (List Char)
  | [] => [[]]
  | c :: rest =>
    match splitOnPred p rest with
    | [] => [[c]]
    | h :: t => if p c then [] :: h :: t else (c :: h) :: t

/-! ## Data model (`src/api/src/types/index.ts`) -/

/-- `SearchRequest`: the normalized incoming request. -/
structure SearchRequest where
  query : String
  orientation : Option String
  count : Option Nat
  start : Option Nat
  tbs : Option String
deriving Repr, DecidableEq

/-- `IntermediarySearchResult`: provider-agnostic normalized image record.
A missing `width`/`height` is modelled as `0`: the ranking comparator
treats `undefined` and `0` identically (both falsy). -/
structure IntermediarySearchResult where
  id : String
  title : String
  url : String
  thumbnailUrl : String
  sourceUrl : String
  sourceDomain : String
  description : String
  width : Nat
  height : Nat
  fileSize : Option Nat
  mimeType : String
  fileFormat : String
  sourceEngine : String
deriving Repr, DecidableEq

/-- `IntermediaryPaginationInfo`: the computed pagination window. -/
structure IntermediaryPaginationInfo where
  currentPage : Nat
  totalResults : Nat
  resultsPerPage : Nat
  totalPages : Nat
  hasNextPage : Bool
  hasPreviousPage : Bool
  nextStartIndex : Option Nat
  previousStartIndex : Option Nat
deriving Repr, DecidableEq

/-- `searchInfo` block of an intermediary response (ISO timestamp omitted). -/
structure SearchInfo where
  query : String
  orientation : Option String
  searchTime : Nat
  searchEngine : String
deriving Repr, DecidableEq

/-- `IntermediarySearchResponse`. -/
structure IntermediarySearchResponse where
  results : List IntermediarySearchResult
  pagination : IntermediaryPaginationInfo
  searchInfo : SearchInfo
deriving Repr, DecidableEq

/-- `ApiResponse<T>`. -/
structure ApiResponse (T : Type) where
  success : Bool
  data : Option T
  error : Option String
  message : Option String
deriving Repr, DecidableEq

/-- The `results` list carried by a successful response (empty when absent). -/
def responseResults (r : ApiResponse IntermediarySearchResponse) :
    List IntermediarySearchResult :=
  match r.data with
  | some d => d.results
  | none => []

/-- The pagination window carried by a response, when present. -/
def responsePagination (r : ApiResponse IntermediarySearchResponse) :
    Option IntermediaryPaginationInfo :=
  match r.data with
  | some d => some d.pagination
  | none => none

/-! ## Pagination windows

Each of the three places of the code that computes a pagination window is
embedded as a pure function of the raw request fields and the total. -/

/-- The pagination window computed by `AggregatedSearchService.search`
(`aggregatedSearchService.ts` lines 60-76): `count`/`start` are defaulted
with `v && v > 0 ? v : d`, then
`totalPages = ceil(totalResults/count)`, `currentPage = ceil(start/count)`. -/
def aggregatedPagination (count? start? : Option Nat) (totalResults : Nat) :
    IntermediaryPaginationInfo :=
  let count := jsPosOrNat count? 10
  let start := jsPosOrNat start? 1
  let totalPages := if 0 < count then ceilDiv totalResults count else 1
  let currentPage := if 0 < count then ceilDiv start count else 1
  { currentPage := currentPage
    totalResults := totalResults
    resultsPerPage := count
    totalPages := totalPages
    hasNextPage := decide (currentPage < totalPages)
    hasPreviousPage := decide (1 < currentPage)
    nextStartIndex := if currentPage < totalPages then some (start + count) else none
    previousStartIndex := if 1 < currentPage then some (max 1 (start - count)) else none }

/-- The pagination window computed by
`GoogleSearchEngine.convertToIntermediaryFormat` (`src/unnamed/part_007`
lines 105-147): `count`/`start` are defaulted with JS `||`. -/
def googlePagination (count? start? : Option Nat) (totalResults : Nat) :
    IntermediaryPaginationInfo :=
  let resultsPerPage := jsOrNat count? 10
  let currentStartIndex := jsOrNat start? 1
  let currentPage := ceilDiv currentStartIndex resultsPerPage
  let totalPages := ceilDiv totalResults resultsPerPage
  { currentPage := currentPage
    totalResults := totalResults
    resultsPerPage := resultsPerPage
    totalPages := totalPages
    hasNextPage := decide (currentPage < totalPages)
    hasPreviousPage := decide (1 < currentPage)
    nextStartIndex :=
      if currentPage < totalPages then some (currentStartIndex + resultsPerPage) else none
    previousStartIndex :=
      if 1 < currentPage then some (max 1 (currentStartIndex - resultsPerPage)) else none }

/-- The pagination window computed by `BraveSearchEngine.search`
(`braveSearchEngine.ts` lines 229-284): when the cached set is empty the
code returns a fixed window with `currentPage = 1`; otherwise it computes
the window from the requested `count`/`start` (defaulted with JS `||`). -/
def bravePagination (count? start? : Option Nat) (totalResults : Nat) :
    IntermediaryPaginationInfo :=
  if totalResults = 0 then
    { currentPage := 1
      totalResults := 0
      resultsPerPage := jsOrNat count? 10
      totalPages := 0
      hasNextPage := false
      hasPreviousPage := false
      nextStartIndex := none
      previousStartIndex := none }
  else
    let requestedCount := jsOrNat count? 10
    let startIndex := jsOrNat start? 1
    let currentPage := ceilDiv startIndex requestedCount
    let totalPages := ceilDiv totalResults requestedCount
    { currentPage := currentPage
      totalResults := totalResults
      resultsPerPage := requestedCount
      totalPages := totalPages
      hasNextPage := decide (currentPage < totalPages)
      hasPreviousPage := decide (1 < currentPage)
      nextStartIndex :=
        if currentPage < totalPages then some (startIndex + requestedCount) else none
      previousStartIndex :=
        if 1 < currentPage then some (max 1 (startIndex - requestedCount)) else none }

/-! ## Query utilities (`src/unnamed/part_008`, the services' queryUtils) -/

/-- Occurrence of `pat` as a contiguous run of `l`. -/
def listContains (pat : List Char) : List Char → Bool
  | [] => pat.isEmpty
  | c :: rest => pat.isPrefixOf (c :: rest) || listContains pat rest

/-- Substring test, used to model JS regex `test` on a fixed literal. -/
def containsSubstr (s pat : String) : Bool := listContains pat.data s.data

def imageExtensions : List String := ["jpg", "jpeg", "png", "gif", "webp", "bmp", "svg"]

def knownImageServices : List String :=
  ["gstatic", "imgur", "unsplash", "pexels", "pixabay", "flickr"]

/-- The case-insensitive regex from the code: an image extension followed by
`?` or the end of the URL. -/
def hasImageExtension (url : String) : Bool :=
  imageExtensions.any fun e =>
    jsEndsWith (jsToLower url) ("." ++ e) ||
      containsSubstr (jsToLower url) ("." ++ e ++ "?")

def isKnownImageService (url : String) : Bool :=
  knownImageServices.any fun w => containsSubstr (jsToLower url) w

/-- `isValidImageUrl`: HTTP(S), not data/blob, length bounded, and either an
image extension or a known image host. The `new URL(url)` parse succeeding
with an http/https protocol is modelled by the scheme prefix check; the JS
word-boundary `\b` around service names is modelled as a substring test. -/
def isValidImageUrl (url : String) : Bool :=
  if url = "" then false
  else if !(jsStartsWith url "http://" || jsStartsWith url "https://") then false
  else if jsStartsWith url "data:" || jsStartsWith url "blob:" then false
  else if url.length > 2000 then false
  else hasImageExtension url || isKnownImageService url

/-- `url.split('.').pop()?.toLowerCase().split('?')[0]`. -/
def urlExtension (url : String) : String :=
  let last := ((splitOnChar '.' url.data).getLast?).getD []
  { data := ((splitOnChar '?' (last.map Char.toLower)).headD []) }

/-- `getMimeTypeFromUrl`. -/
def getMimeTypeFromUrl (url : String) : String :=
  match urlExtension url with
  | "jpg" => "image/jpeg"
  | "jpeg" => "image/jpeg"
  | "png" => "image/png"
  | "gif" => "image/gif"
  | "webp" => "image/webp"
  | "bmp" => "image/bmp"
  | "svg" => "image/svg+xml"
  | _ => "image/jpeg"

/-- `getFileFormatFromUrl` (`extension || 'jpg'`). -/
def getFileFormatFromUrl (url : String) : String :=
  let e := urlExtension url
  if e ≠ "" then e else "jpg"

/-- Modelled from the spec: `craftBraveWallpaperQuery` is imported by
`braveSearchEngine.ts` from queryUtils but its definition is not in the
repository snapshot. Per the spec it builds a provider query from the user
query and the orientation hint only (query construction details are a
non-goal); only that dependency shape matters to the claims. -/
def craftBraveWallpaperQuery (query : String) (orientation : Option String) : String :=
  query ++ " wallpaper" ++
    (match orientation with
     | some "portrait" => " portrait"
     | some "landscape" => " landscape"
     | _ => "")

/-! ## Deduplication (`AggregatedSearchService.deduplicateResults`,
`aggregatedSearchService.ts` lines 212-222) -/

/-- The loop of `deduplicateResults`: `seen` is the set of already-seen
`url` values (a `Set<string>` modelled as a list). -/
def dedupGo (seen : List String) :
    List IntermediarySearchResult → List IntermediarySearchResult
  | [] => []
  | item :: rest =>
    if item.url ∈ seen then dedupGo seen rest
    else item :: dedupGo (item.url :: seen) rest

/-- `deduplicateResults`: keep the first occurrence of each `url`. -/
def deduplicateResults (results : List IntermediarySearchResult) :
    List IntermediarySearchResult :=
  dedupGo [] results







/-! ## Ranking (`AggregatedSearchService.optimizeResults`,
`aggregatedSearchService.ts` lines 224-234) -/

/-- The sort key of the comparator: `(a.width && a.height) ? a.width * a.height : 0`. -/
def resolutionKey (r : IntermediarySearchResult) : Nat :=
  if r.width ≠ 0 then (if r.height ≠ 0 then r.width * r.height else 0) else 0

/-- The total preorder induced by the comparator of `optimizeResults`:
`a` may come before `b` iff `resolutionKey b ≤ resolutionKey a`
(resolution descending, zero/unknown last). -/
def resolutionGE (a b : IntermediarySearchResult) : Prop :=
  resolutionKey b ≤ resolutionKey a

instance : DecidableRel resolutionGE := fun a b =>
  inferInstanceAs (Decidable (resolutionKey b ≤ resolutionKey a))

instance : IsTotal IntermediarySearchResult resolutionGE :=
  ⟨fun a b => (Nat.le_total (resolutionKey b) (resolutionKey a)).imp id id⟩

instance : IsTrans IntermediarySearchResult resolutionGE :=
  ⟨fun _ _ _ h1 h2 => Nat.le_trans h2 h1⟩

/-- `optimizeResults`: `results.slice().sort(comparator)`. The comparator
induces the total preorder `resolutionGE`, and ECMAScript `Array.prototype.sort`
is stable; a stable sort by a total preorder is extensionally unique, so it
is modelled by the (stable) insertion sort with that preorder. -/
def optimizeResults (results : List IntermediarySearchResult) :
    List IntermediarySearchResult :=
  results.insertionSort resolutionGE




/-! ## Brave adapter (`src/api/src/services/braveSearchEngine.ts`)

The upstream HTTP call is modelled by an oracle `upstream`, the list of raw
`BraveImageResult`s the Brave API would return; the adapter's verified
behaviour is then a pure function of `(upstream, cache, now, request)`.
Each run also reports the list of upstream calls it performed, so that
claims about the number and shape of the fetches can be stated. -/

/-- A raw Brave API image result (the fields the adapter reads). -/
structure BraveImageResult where
  title : Option String
  url : String
  source : String
  propertiesUrl : String
  thumbnailSrc : Option String
deriving Repr, DecidableEq

/-- `BraveCachedResults`: one entry of the static raw-results cache. -/
structure BraveCachedResults where
  allResults : List IntermediarySearchResult
  totalResults : Nat
  query : String
  orientation : Option String
  fetchedAt : Nat
  searchTime : Nat
deriving Repr, DecidableEq

/-- The static `rawResultsCache` Map, as an association list with unique keys. -/
abbrev BraveRawCache := List (String × BraveCachedResults)

/-- `RAW_CACHE_TTL`: one week in milliseconds. -/
def RAW_CACHE_TTL : Nat := 604800000

/-- `Map.get`. -/
def braveCacheGet (cache : BraveRawCache) (key : String) : Option BraveCachedResults :=
  (cache.find? (fun p => p.1 == key)).map (fun p => p.2)

/-- `Map.delete`. -/
def braveCacheDelete (cache : BraveRawCache) (key : String) : BraveRawCache :=
  cache.filter (fun p => !(p.1 == key))

/-- `Map.set` (unique-key association list: replace any entry for the key). -/
def braveCacheSet (cache : BraveRawCache) (key : String) (v : BraveCachedResults) :
    BraveRawCache :=
  (key, v) :: braveCacheDelete cache key

/-- `createRawResultsCacheKey`: keyed by lowercased trimmed query and
orientation only (never by `count`/`start`). -/
def createRawResultsCacheKey (query : String) (orientation : Option String) : String :=
  "brave_raw:" ++ jsTrim (jsToLower query) ++ ":" ++ (jsOrStr orientation "any")

/-- `getCachedRawResults`: a hit older than the TTL is deleted and treated
as a miss. Returns the (possibly pruned) cache alongside the lookup. -/
def getCachedRawResults (cache : BraveRawCache) (now : Nat) (key : String) :
    Option BraveCachedResults × BraveRawCache :=
  match braveCacheGet cache key with
  | none => (none, cache)
  | some c =>
    if now - c.fetchedAt > RAW_CACHE_TTL then (none, braveCacheDelete cache key)
    else (some c, cache)

/-- `setCachedRawResults`: store, then if the map exceeds 50 entries sweep
every entry whose age exceeds the TTL. -/
def setCachedRawResults (cache : BraveRawCache) (now : Nat) (key : String)
    (v : BraveCachedResults) : BraveRawCache :=
  let c1 := braveCacheSet cache key v
  if c1.length > 50 then c1.filter (fun p => now - p.2.fetchedAt ≤ RAW_CACHE_TTL)
  else c1

/-- `request.count && (request.count < lo || request.count > hi)`:
a `count` of `0` is falsy in JS and skips the range check. -/
def countCheckFails (count : Option Nat) (hi : Nat) : Bool :=
  match count with
  | some c => c != 0 && (decide (c < 1) || decide (c > hi))
  | none => false

/-- `request.start && request.start < 1`: a `start` of `0` is falsy in JS
and skips the check (for naturals the guarded check can never fire). -/
def startCheckFails (start : Option Nat) : Bool :=
  match start with
  | some s => s != 0 && decide (s < 1)
  | none => false

/-- `request.orientation && !['landscape','portrait'].includes(...)`. -/
def orientationCheckFails (orientation : Option String) : Bool :=
  match orientation with
  | some o => o != "" && !(o == "landscape" || o == "portrait")
  | none => false

/-- `BraveSearchEngine.validateSearchRequest`. Note the JS truthiness
guards: a `count` or `start` of `0` is falsy and skips its range check. -/
def braveValidateSearchRequest (request : SearchRequest) : Option String :=
  if request.query = "" ∨ (jsTrim request.query).length = 0 then
    some "Search query is required"
  else if request.query.length > 400 then
    some "Search query too long (max 400 characters)"
  else if countCheckFails request.count 100 then
    some "Count must be between 1 and 100 for Brave engine"
  else if startCheckFails request.start then
    some "Start index must be greater than 0"
  else if orientationCheckFails request.orientation then
    some "Orientation must be either landscape or portrait"
  else none

/-- The filter of `fetchFromBraveAPI`: drop results whose direct image URL
is not a valid image URL or whose thumbnail is missing/empty. -/
def braveResultFilter (item : BraveImageResult) : Bool :=
  isValidImageUrl item.propertiesUrl &&
    (match item.thumbnailSrc with
     | none => false
     | some s => s.length != 0)

/-- Conversion of one filtered raw result to the intermediary format
(`fetchFromBraveAPI`, lines 178-192): Brave provides no dimensions, so
`width = height = 0`, and no file size. -/
def braveConvert (idx : Nat) (item : BraveImageResult) : IntermediarySearchResult :=
  { id := "brave_" ++ toString (idx + 1)
    title := jsOrStr item.title "Untitled"
    url := item.propertiesUrl
    thumbnailUrl := (item.thumbnailSrc).getD ""
    sourceUrl := item.url
    sourceDomain := item.source
    description := jsOrStr item.title ""
    width := 0
    height := 0
    fileSize := none
    mimeType := getMimeTypeFromUrl item.propertiesUrl
    fileFormat := getFileFormatFromUrl item.propertiesUrl
    sourceEngine := "brave" }

/-- The one upstream HTTP request issued by `fetchFromBraveAPI`: the crafted
query and the `count` URL parameter, which the code hard-codes to `'100'`
("Always fetch maximum for caching"). -/
structure BraveUpstreamCall where
  q : String
  count : Nat
deriving Repr, DecidableEq

/-- `fetchFromBraveAPI`: one upstream fetch at batch size 100, filter, and
convert. The wall-clock `searchTime` is modelled as `0`. -/
def fetchFromBraveAPI (upstream : List BraveImageResult) (request : SearchRequest)
    (now : Nat) : BraveCachedResults × BraveUpstreamCall :=
  let call : BraveUpstreamCall :=
    { q := craftBraveWallpaperQuery request.query request.orientation, count := 100 }
  let filteredResults := upstream.filter braveResultFilter
  let allResults := filteredResults.enum.map (fun p => braveConvert p.1 p.2)
  ({ allResults := allResults
     totalResults := allResults.length
     query := request.query
     orientation := request.orientation
     fetchedAt := now
     searchTime := 0 }, call)

/-- The page served from a cached raw set (`search`, lines 229-307): the
empty-set branch returns the fixed empty window, otherwise the slice
`[start-1, start-1+count)` with ids renumbered to absolute positions. -/
def buildBraveResponse (cached : BraveCachedResults) (request : SearchRequest) :
    ApiResponse IntermediarySearchResponse :=
  let searchInfo : SearchInfo :=
    { query := request.query
      orientation := request.orientation
      searchTime := cached.searchTime
      searchEngine := "Brave Search" }
  if cached.totalResults = 0 then
    { success := true
      data := some
        { results := []
          pagination := bravePagination request.count request.start 0
          searchInfo := searchInfo }
      error := none
      message := none }
  else
    let requestedCount := jsOrNat request.count 10
    let startIndex := jsOrNat request.start 1
    let pageResults := (cached.allResults.drop (startIndex - 1)).take requestedCount
    let results := pageResults.enum.map
      (fun p => { p.2 with id := "brave_" ++ toString (startIndex + p.1) })
    { success := true
      data := some
        { results := results
          pagination := bravePagination request.count request.start cached.totalResults
          searchInfo := searchInfo }
      error := none
      message := none }

/-- The observable outcome of one `BraveSearchEngine.search` run. -/
structure BraveSearchOutcome where
  response : ApiResponse IntermediarySearchResponse
  cache : BraveRawCache
  upstreamCalls : List BraveUpstreamCall
deriving Repr, DecidableEq

/-- `BraveSearchEngine.search`: validate, consult the raw-results cache,
fetch-and-store on a miss, then serve the requested page from the raw set. -/
def braveSearch (upstream : List BraveImageResult) (cache : BraveRawCache)
    (now : Nat) (request : SearchRequest) : BraveSearchOutcome :=
  match braveValidateSearchRequest request with
  | some err =>
    { response := { success := false, data := none, error := some err, message := none }
      cache := cache
      upstreamCalls := [] }
  | none =>
    match getCachedRawResults cache now
        (createRawResultsCacheKey request.query request.orientation) with
    | (some cachedResults, cache1) =>
      { response := buildBraveResponse cachedResults request
        cache := cache1
        upstreamCalls := [] }
    | (none, cache1) =>
      { response := buildBraveResponse (fetchFromBraveAPI upstream request now).1 request
        cache := setCachedRawResults cache1 now
          (createRawResultsCacheKey request.query request.orientation)
          (fetchFromBraveAPI upstream request now).1
        upstreamCalls := [(fetchFromBraveAPI upstream request now).2] }

/-- `GoogleSearchEngine.validateSearchRequest` (`src/unnamed/part_007`
lines 73-95): same shape as Brave's but with a 200-character query bound
and a count range of 1..10. The same truthiness guards apply: a `count` or
`start` of `0` skips its range check. -/
def googleValidateSearchRequest (request : SearchRequest) : Option String :=
  if request.query = "" ∨ (jsTrim request.query).length = 0 then
    some "Search query is required"
  else if request.query.length > 200 then
    some "Search query too long (max 200 characters)"
  else if countCheckFails request.count 10 then
    some "Count must be between 1 and 10"
  else if startCheckFails request.start then
    some "Start index must be greater than 0"
  else if orientationCheckFails request.orientation then
    some "Orientation must be either landscape or portrait"
  else none

/-! ## Route-level cache (`CacheService`, `src/unnamed/part_004`) -/

/-- `CacheEntry<T>`. -/
structure RouteCacheEntry (T : Type) where
  data : T
  timestamp : Nat
  ttl : Nat
deriving Repr, DecidableEq

/-- The in-memory route cache, an association list with unique keys. -/
abbrev RouteCache (T : Type) := List (String × RouteCacheEntry T)

def SEARCH_CACHE_TTL : Nat := 604800

def SUGGESTIONS_CACHE_TTL : Nat := 86400

def HEALTH_CACHE_TTL : Nat := 300

inductive CacheType where
  | search
  | suggestions
  | health
deriving Repr, DecidableEq

/-- `getCacheConfig` (only the `ttl` field matters to the claims). -/
def getCacheConfigTtl : CacheType → Nat
  | .search => SEARCH_CACHE_TTL
  | .suggestions => SUGGESTIONS_CACHE_TTL
  | .health => HEALTH_CACHE_TTL

def routeCacheGet {T : Type} (cache : RouteCache T) (key : String) :
    Option (RouteCacheEntry T) :=
  (cache.find? (fun p => p.1 == key)).map (fun p => p.2)

def routeCacheDelete {T : Type} (cache : RouteCache T) (key : String) : RouteCache T :=
  cache.filter (fun p => !(p.1 == key))

def routeCacheSet {T : Type} (cache : RouteCache T) (key : String)
    (e : RouteCacheEntry T) : RouteCache T :=
  (key, e) :: routeCacheDelete cache key

/-- `CacheService.getFromCache`: an entry older than `ttl` seconds is
deleted and reported absent. Returns the (possibly pruned) cache. -/
def getFromCache {T : Type} (cache : RouteCache T) (now : Nat) (key : String) :
    Option T × RouteCache T :=
  match routeCacheGet cache key with
  | none => (none, cache)
  | some e =>
    if now - e.timestamp > e.ttl * 1000 then (none, routeCacheDelete cache key)
    else (some e.data, cache)

/-- `CacheService.setCache`: store, then if the map exceeds 100 entries
sweep expired entries. -/
def setRouteCache {T : Type} (cache : RouteCache T) (now : Nat) (key : String)
    (data : T) (ttl : Nat) : RouteCache T :=
  let c1 := routeCacheSet cache key { data := data, timestamp := now, ttl := ttl }
  if c1.length > 100 then c1.filter (fun p => now - p.2.timestamp ≤ p.2.ttl * 1000)
  else c1

/-- `CacheService.withCache`: serve from the cache when a live entry exists
(the cached value is a non-null object, hence truthy), otherwise run the
operation and store whatever it returned — the `success` flag of the result
is never inspected. `opResult` stands for the value the wrapped operation
would produce; the returned flag `ranOperation` records whether the
operation was executed. -/
def withCache {T : Type} (cache : RouteCache T) (now : Nat) (key : String)
    (opResult : T) (cacheType : CacheType) :
    (T × Bool) × RouteCache T × Bool :=
  match getFromCache cache now key with
  | (some cachedData, cache1) => ((cachedData, true), cache1, false)
  | (none, cache1) =>
    ((opResult, false),
     setRouteCache cache1 now key opResult (getCacheConfigTtl cacheType), true)

/-! ## Aggregated engine (`src/api/src/services/aggregatedSearchService.ts`)

Each provider call the engine would make is represented by its outcome:
either the `ApiResponse` the adapter returned, or the message of the
exception it threw. The D1 database is modelled by its two relations. -/

/-- Outcome of one provider `search` call. -/
inductive EngineCallOutcome where
  | ok (resp : ApiResponse IntermediarySearchResponse)
  | threw (msg : String)
deriving Repr, DecidableEq

/-- Oracle for all provider calls of one aggregation: up to
`GOOGLE_PAGE_COUNT` Google page calls, and one call each for Brave/Serper
when the corresponding API key is configured (`none` = engine disabled). -/
structure EngineOutcomes where
  googlePages : List EngineCallOutcome
  brave : Option EngineCallOutcome
  serper : Option EngineCallOutcome
deriving Repr, DecidableEq

/-- `if (resp.success && resp.data?.results) push(...)`: the contribution
of one non-throwing call. -/
def engineContribution (outcome : EngineCallOutcome) : List IntermediarySearchResult :=
  match outcome with
  | .ok resp => if resp.success then responseResults resp else []
  | .threw _ => []

/-- The first thrown exception in a sequence of calls, if any. -/
def firstThrow : List EngineCallOutcome → Option String
  | [] => none
  | .ok _ :: rest => firstThrow rest
  | .threw m :: _ => some m

/-- The Google block of `fetchFromEngines` (lines 263-278): page results
are accumulated locally and pushed only after the loop, so an exception at
any page discards every Google result and records one error. -/
def googleContribution (pages : List EngineCallOutcome) :
    List IntermediarySearchResult × List String :=
  match firstThrow pages with
  | some m => ([], ["Google: " ++ m])
  | none => ((pages.map engineContribution).flatten, [])

/-- The Brave/Serper blocks of `fetchFromEngines` (lines 280-304). -/
def optionalEngineContribution (label : String) :
    Option EngineCallOutcome → List IntermediarySearchResult × List String
  | none => ([], [])
  | some (.ok resp) => (engineContribution (.ok resp), [])
  | some (.threw m) => ([], [label ++ ": " ++ m])

/-- `fetchFromEngines`: Google pages first, then Brave, then Serper; errors
are only collected for logging and the merged list is returned either way. -/
def fetchFromEngines (o : EngineOutcomes) :
    List IntermediarySearchResult × List String :=
  let g := googleContribution o.googlePages
  let b := optionalEngineContribution "Brave" o.brave
  let s := optionalEngineContribution "Serper" o.serper
  (g.1 ++ (b.1 ++ s.1), g.2 ++ (b.2 ++ s.2))

/-- A row of `aggregated_results`. `engines_used` (a JSON string in the
code) is modelled as the list it serializes; timestamps as `Nat` ms. -/
structure AggregatedMeta where
  id : String
  query : String
  keywords : String
  orientation : Option String
  tbs : Option String
  engines_used : List String
  created_at : Nat
  expires_at : Nat
  user_id : Option String
deriving Repr, DecidableEq

/-- The D1 store: the `aggregated_results` relation and the `result_items`
relation (each item tagged with its `agg_id`, kept in rowid order). -/
structure AggDB where
  aggs : List AggregatedMeta
  items : List (String × IntermediarySearchResult)
deriving Repr, DecidableEq

/-- `SELECT * FROM aggregated_results WHERE id = ?` (first row or null).
No expiry condition appears in the query. -/
def getAggregatedResult (db : AggDB) (aggId : String) : Option AggregatedMeta :=
  db.aggs.find? (fun m => m.id == aggId)

/-- `storeAggregatedResult`: `INSERT OR REPLACE` of the meta row and of each
item row (replacement by primary key; replaced rows get fresh rowids, i.e.
move to the end). -/
def storeAggregatedResult (db : AggDB) (meta : AggregatedMeta)
    (items : List IntermediarySearchResult) : AggDB :=
  { aggs := (db.aggs.filter (fun m => !(m.id == meta.id))) ++ [meta]
    items := (db.items.filter (fun p => !(items.any (fun it => it.id == p.2.id)))) ++
      items.map (fun it => (meta.id, it)) }

/-- `SELECT * FROM result_items WHERE agg_id = ? ORDER BY rowid ASC
LIMIT ? OFFSET ?`. -/
def getPaginatedResults (db : AggDB) (aggId : String) (offset limit : Nat) :
    List IntermediarySearchResult :=
  ((db.items.filter (fun p => p.1 == aggId)).map (fun p => p.2)).drop offset
    |>.take limit

/-- `SELECT COUNT(*) FROM result_items WHERE agg_id = ?`. -/
def getTotalResults (db : AggDB) (aggId : String) : Nat :=
  (db.items.filter (fun p => p.1 == aggId)).length

/-- `extractKeywords`: lowercase, split on whitespace, drop empties, keep
first occurrences (JS `Set` iteration order). -/
def dedupStringsGo (seen : List String) : List String → List String
  | [] => []
  | w :: rest =>
    if w ∈ seen then dedupStringsGo seen rest
    else w :: dedupStringsGo (w :: seen) rest

def extractKeywords (query : String) : List String :=
  dedupStringsGo []
    (((splitOnPred Char.isWhitespace (jsToLower query).data).map
        (fun cs => ({ data := cs } : String))).filter (fun w => w ≠ ""))

/-- `generateAggId`: SHA-1 of `query|orientation|tbs`. The digest is
modelled by its preimage (an injective stand-in used only as a DB key). -/
def generateAggId (request : SearchRequest) : String :=
  request.query ++ "|" ++ (request.orientation).getD "" ++ "|" ++ (request.tbs).getD ""

/-- `getEnginesUsed`: Google always, Brave/Serper when their keys exist. -/
def getEnginesUsed (braveEnabled serperEnabled : Bool) : List String :=
  ["google"] ++ (if braveEnabled then ["brave"] else []) ++
    (if serperEnabled then ["serper"] else [])

/-- The milliseconds of the 7-day aggregated-set TTL. -/
def AGG_TTL_MS : Nat := 1000 * 60 * 60 * 24 * 7

/-- The observable outcome of one `AggregatedSearchService.search` run:
the response, the database afterwards, and whether the engine fan-out
(`fetchFromEngines`) was performed. -/
structure AggSearchOutcome where
  response : ApiResponse IntermediarySearchResponse
  db : AggDB
  didFetch : Bool
deriving Repr, DecidableEq

/-- `AggregatedSearchService.search` (lines 34-95): look the fingerprint up
(by id only — the stored `expires_at` is never consulted), fan out to the
engines on a missing row, deduplicate, rank, store, then page the stored
list and compute the pagination window. -/
def aggregatedSearch (db : AggDB) (now : Nat) (outcomes : EngineOutcomes)
    (request : SearchRequest) (userId : Option String) : AggSearchOutcome :=
  let aggId := generateAggId request
  let meta0 := getAggregatedResult db aggId
  let fetchNeeded := meta0.isNone
  let db1 :=
    if fetchNeeded then
      let rawResults := (fetchFromEngines outcomes).1
      let deduped := deduplicateResults rawResults
      let optimized := optimizeResults deduped
      let meta : AggregatedMeta :=
        { id := aggId
          query := request.query
          keywords := String.intercalate "," (extractKeywords request.query)
          orientation := request.orientation
          tbs := request.tbs
          engines_used := getEnginesUsed outcomes.brave.isSome outcomes.serper.isSome
          created_at := now
          expires_at := now + AGG_TTL_MS
          user_id := userId }
      storeAggregatedResult db meta optimized
    else db
  let count := jsPosOrNat request.count 10
  let start := jsPosOrNat request.start 1
  let offset := start - 1
  let results := getPaginatedResults db1 aggId offset count
  let totalResults := getTotalResults db1 aggId
  { response :=
      { success := true
        data := some
          { results := results
            pagination := aggregatedPagination request.count request.start totalResults
            searchInfo :=
              { query := request.query
                orientation := request.orientation
                searchTime := 0
                searchEngine := "aggregated" } }
        error := none
        message := none }
    db := db1
    didFetch := fetchNeeded }

/-- A provider call that failed: it either threw or returned an
unsuccessful response. -/
def outcomeFailed : EngineCallOutcome → Bool
  | .ok resp => !resp.success
  | .threw _ => true

/-- Erase the position-dependent `id` of a result (the Brave adapter
renumbers ids to absolute pagination positions when serving a page; the
remaining fields identify the served content). -/
def stripId (r : IntermediarySearchResult) : IntermediarySearchResult :=
  { r with id := "" }

/-! ## Concrete fixtures (inputs for witnesses and counterexamples) -/

def sampleResult (idv urlv : String) (w h : Nat) (engine : String) :
    IntermediarySearchResult :=
  { id := idv
    title := "title"
    url := urlv
    thumbnailUrl := "https://t.example/" ++ idv
    sourceUrl := "https://p.example/" ++ idv
    sourceDomain := "example.com"
    description := ""
    width := w
    height := h
    fileSize := none
    mimeType := "image/jpeg"
    fileFormat := "jpg"
    sourceEngine := engine }

/-- A provider call that returned the given results successfully. -/
def okOutcome (rs : List IntermediarySearchResult) : EngineCallOutcome :=
  .ok
    { success := true
      data := some
        { results := rs
          pagination :=
            { currentPage := 1, totalResults := rs.length, resultsPerPage := 10,
              totalPages := 1, hasNextPage := false, hasPreviousPage := false,
              nextStartIndex := none, previousStartIndex := none }
          searchInfo := { query := "q", orientation := none, searchTime := 0,
                          searchEngine := "fixture" } }
      error := none
      message := none }

def gR1 : IntermediarySearchResult :=
  sampleResult "google_1" "https://img.example/a.jpg" 800 600 "google"

def gR2 : IntermediarySearchResult :=
  sampleResult "google_2" "https://img.example/b.jpg" 1920 1080 "google"

/-- A Brave result that duplicates the URL of `gR1`. -/
def bR1 : IntermediarySearchResult :=
  sampleResult "brave_1" "https://img.example/a.jpg" 0 0 "brave"

def bR2 : IntermediarySearchResult :=
  sampleResult "brave_2" "https://img.example/c.jpg" 0 0 "brave"

def outcomesSample : EngineOutcomes :=
  { googlePages := [okOutcome [gR1, gR2]]
    brave := some (okOutcome [bR1, bR2])
    serper := none }

/-- Every enabled provider call fails (all five Google pages throw, Brave
and Serper throw). -/
def outcomesAllFail : EngineOutcomes :=
  { googlePages := [.threw "timeout", .threw "timeout", .threw "timeout",
                    .threw "timeout", .threw "timeout"]
    brave := some (.threw "timeout")
    serper := some (.threw "timeout") }

def emptyDB : AggDB := { aggs := [], items := [] }

def sampleRequest : SearchRequest :=
  { query := "mountains", orientation := none, count := some 10, start := some 1,
    tbs := none }

/-- A request with `count = 0` and `start = 0`. -/
def zeroCountRequest : SearchRequest :=
  { query := "mountains", orientation := none, count := some 0, start := some 0,
    tbs := none }

def defaultedRequest : SearchRequest :=
  { query := "mountains", orientation := none, count := some 10, start := some 1,
    tbs := none }

def staleItem : IntermediarySearchResult :=
  sampleResult "google_1" "https://img.example/old.jpg" 640 480 "google"

/-- A stored aggregated set whose `expires_at` (one TTL after epoch) lies
far in the past relative to `lateNow`. -/
def staleMeta : AggregatedMeta :=
  { id := generateAggId sampleRequest
    query := "mountains"
    keywords := "mountains"
    orientation := none
    tbs := none
    engines_used := ["google"]
    created_at := 0
    expires_at := AGG_TTL_MS
    user_id := none }

def staleDB : AggDB := { aggs := [staleMeta], items := [(staleMeta.id, staleItem)] }

def lateNow : Nat := 10 * AGG_TTL_MS

/-- Providers would answer with a fresh result on a re-fetch. -/
def freshOutcomes : EngineOutcomes :=
  { googlePages := [okOutcome [gR2]], brave := none, serper := none }

def braveUp1 : BraveImageResult :=
  { title := some "A"
    url := "https://page.example/a"
    source := "example.com"
    propertiesUrl := "https://img.example/a.jpg"
    thumbnailSrc := some "https://t.example/a" }

/-- Filtered out: the direct URL has no image extension and no known host. -/
def braveUp2 : BraveImageResult :=
  { title := some "B"
    url := "https://page.example/b"
    source := "example.com"
    propertiesUrl := "https://img.example/b"
    thumbnailSrc := some "https://t.example/b" }

/-- Filtered out: missing thumbnail. -/
def braveUp3 : BraveImageResult :=
  { title := none
    url := "https://page.example/c"
    source := "example.com"
    propertiesUrl := "https://img.example/c.png"
    thumbnailSrc := none }

def braveUpstreamSample : List BraveImageResult := [braveUp1, braveUp2, braveUp3]

def braveRequestSample : SearchRequest :=
  { query := "cats", orientation := none, count := some 2, start := some 1, tbs := none }

/-- A failed operation result, as cached by the route wrapper. -/
def failedResponse : ApiResponse IntermediarySearchResponse :=
  { success := false
    data := none
    error := some "Brave search failed: 429"
    message := none }

def emptyRouteCache : RouteCache (ApiResponse IntermediarySearchResponse) := []

/-- A successful operation result (what a retry would have produced). -/
def freshOpResponse : ApiResponse IntermediarySearchResponse :=
  { success := true
    data := none
    error := none
    message := some "fresh" }

/-! ## Helper lemmas -/

/-- `ceilDiv` is the ceiling of the rational `a / b`: it is the least `n`
with `a ≤ n * b`. -/
theorem ceilDiv_le_iff (a b n : Nat) (hb : 0 < b) : ceilDiv a b ≤ n ↔ a ≤ n * b := by
  unfold ceilDiv
  rw [Nat.div_le_iff_le_mul_add_pred hb, Nat.mul_comm n b]
  omega

theorem ceilDiv_pos (a b : Nat) (hb : 0 < b) (ha : 0 < a) : 0 < ceilDiv a b := by
  by_contra h
  have h0 : ceilDiv a b ≤ 0 := by omega
  rw [ceilDiv_le_iff a b 0 hb] at h0
  omega

theorem dedupGo_sublist (seen : List String) (l : List IntermediarySearchResult) :
    (dedupGo seen l).Sublist l := by
  induction l generalizing seen with
  | nil => simp [dedupGo]
  | cons item rest ih =>
    simp only [dedupGo]
    by_cases h : item.url ∈ seen
    · simp only [if_pos h]
      exact (ih seen).cons item
    · simp only [if_neg h]
      exact (ih (item.url :: seen)).cons₂ item

theorem mem_of_mem_dedupGo {seen : List String} {l : List IntermediarySearchResult}
    {y : IntermediarySearchResult} (h : y ∈ dedupGo seen l) : y ∈ l :=
  (dedupGo_sublist seen l).mem h

theorem url_not_seen_of_mem_dedupGo {seen : List String}
    {l : List IntermediarySearchResult} {y : IntermediarySearchResult}
    (h : y ∈ dedupGo seen l) : y.url ∉ seen := by
  induction l generalizing seen with
  | nil => simp [dedupGo] at h
  | cons item rest ih =>
    simp only [dedupGo] at h
    by_cases hmem : item.url ∈ seen
    · exact ih (by simpa [if_pos hmem] using h)
    · rw [if_neg hmem] at h
      rcases List.mem_cons.mp h with rfl | h
      · exact hmem
      · have := ih h
        intro hy
        exact this (List.mem_cons_of_mem _ hy)

theorem find?_eq_of_mem_dedupGo {seen : List String}
    {l : List IntermediarySearchResult} {y : IntermediarySearchResult}
    (h : y ∈ dedupGo seen l) :
    l.find? (fun x => x.url == y.url) = some y := by
  induction l generalizing seen with
  | nil => simp [dedupGo] at h
  | cons item rest ih =>
    simp only [dedupGo] at h
    by_cases hmem : item.url ∈ seen
    · rw [if_pos hmem] at h
      have hy : y.url ∉ seen := url_not_seen_of_mem_dedupGo h
      have hne : (item.url == y.url) = false := by
        simp only [beq_eq_false_iff_ne, ne_eq]
        intro he
        exact hy (he ▸ hmem)
      rw [List.find?_cons, hne]
      exact ih h
    · rw [if_neg hmem] at h
      rcases List.mem_cons.mp h with rfl | h
      · rw [List.find?_cons, beq_self_eq_true]
      · have hy : y.url ∉ item.url :: seen := url_not_seen_of_mem_dedupGo h
        have hne : (item.url == y.url) = false := by
          simp only [beq_eq_false_iff_ne, ne_eq]
          intro he
          exact hy (he ▸ List.mem_cons_self _ _)
        rw [List.find?_cons, hne]
        exact ih h

theorem nodup_urls_dedupGo (seen : List String) (l : List IntermediarySearchResult) :
    ((dedupGo seen l).map (fun r => r.url)).Nodup := by
  induction l generalizing seen with
  | nil => simp [dedupGo]
  | cons item rest ih =>
    simp only [dedupGo]
    by_cases hmem : item.url ∈ seen
    · simpa [if_pos hmem] using ih seen
    · rw [if_neg hmem]
      simp only [List.map_cons, List.nodup_cons]
      refine ⟨?_, ih (item.url :: seen)⟩
      intro hc
      rcases List.mem_map.mp hc with ⟨y, hy, hyu⟩
      exact url_not_seen_of_mem_dedupGo hy (hyu ▸ List.mem_cons_self _ _)

theorem url_covered_dedupGo {seen : List String} {l : List IntermediarySearchResult}
    {x : IntermediarySearchResult} (hx : x ∈ l) (hs : x.url ∉ seen) :
    ∃ y ∈ dedupGo seen l, y.url = x.url := by
  induction l generalizing seen with
  | nil => simp at hx
  | cons item rest ih =>
    simp only [dedupGo]
    by_cases hmem : item.url ∈ seen
    · rw [if_pos hmem]
      rcases List.mem_cons.mp hx with rfl | hx
      · exact absurd hmem hs
      · exact ih hx hs
    · rw [if_neg hmem]
      by_cases hxi : x.url = item.url
      · exact ⟨item, List.mem_cons_self _ _, hxi.symm⟩
      · rcases List.mem_cons.mp hx with rfl | hx
        · exact absurd rfl hxi
        · have hs' : x.url ∉ item.url :: seen := by
            intro hmem2
            rcases List.mem_cons.mp hmem2 with h | h
            · exact hxi h
            · exact hs h
          rcases ih hx hs' with ⟨y, hy, hyu⟩
          exact ⟨y, List.mem_cons_of_mem _ hy, hyu⟩

theorem optimizeResults_sorted (l : List IntermediarySearchResult) :
    (optimizeResults l).Pairwise resolutionGE :=
  List.sorted_insertionSort resolutionGE l

theorem optimizeResults_perm (l : List IntermediarySearchResult) :
    (optimizeResults l).Perm l :=
  List.perm_insertionSort resolutionGE l

/-- Stability of the ranking: for every key value, the entries carrying that
key appear in the output in exactly their input order. -/
theorem optimizeResults_stable (l : List IntermediarySearchResult) (k : Nat) :
    (optimizeResults l).filter (fun r => resolutionKey r = k) =
      l.filter (fun r => resolutionKey r = k) := by
  have hc : (l.filter (fun r => resolutionKey r = k)).Pairwise resolutionGE := by
    refine List.pairwise_of_forall_mem_list ?_
    intro a ha b hb
    have ha' := (List.mem_filter.mp ha).2
    have hb' := (List.mem_filter.mp hb).2
    simp only [decide_eq_true_eq] at ha' hb'
    unfold resolutionGE
    omega
  have hsub : (l.filter (fun r => resolutionKey r = k)).Sublist (optimizeResults l) :=
    List.sublist_insertionSort hc (List.filter_sublist l)
  have hsub2 : (l.filter (fun r => resolutionKey r = k)).Sublist
      ((optimizeResults l).filter (fun r => resolutionKey r = k)) := by
    have h2 := hsub.filter (fun r => decide (resolutionKey r = k))
    rw [List.filter_filter] at h2
    simpa using h2
  have hperm : ((optimizeResults l).filter (fun r => resolutionKey r = k)).Perm
      (l.filter (fun r => resolutionKey r = k)) :=
    (optimizeResults_perm l).filter _
  exact (hsub2.eq_of_length hperm.length_eq.symm).symm

theorem enumFrom_map_comp_snd {α β : Type} (f : α → β) (l : List α) (n : Nat) :
    (l.enumFrom n).map (fun p => f p.2) = l.map f := by
  induction l generalizing n with
  | nil => rfl
  | cons x xs ih => simp [List.enumFrom, ih]

theorem googleContribution_failed (pages : List EngineCallOutcome)
    (hg : ∀ p ∈ pages, outcomeFailed p = true) :
    (googleContribution pages).1 = [] := by
  unfold googleContribution
  cases hft : firstThrow pages with
  | some m => rfl
  | none =>
    simp only
    rw [List.flatten_eq_nil_iff]
    intro x hx
    rcases List.mem_map.mp hx with ⟨p, hp, rfl⟩
    cases p with
    | ok resp =>
      have hfail := hg _ hp
      unfold outcomeFailed at hfail
      simp only [Bool.not_eq_true'] at hfail
      simp [engineContribution, hfail]
    | threw m => rfl

theorem optionalEngineContribution_failed (label : String)
    (ob : Option EngineCallOutcome)
    (hb : ∀ b ∈ ob.toList, outcomeFailed b = true) :
    (optionalEngineContribution label ob).1 = [] := by
  cases ob with
  | none => rfl
  | some b =>
    cases b with
    | ok resp =>
      have hfail := hb (EngineCallOutcome.ok resp) (by simp)
      unfold outcomeFailed at hfail
      simp only [Bool.not_eq_true'] at hfail
      simp [optionalEngineContribution, engineContribution, hfail]
    | threw m => rfl

theorem fetchFromEngines_all_failed (o : EngineOutcomes)
    (hg : ∀ p ∈ o.googlePages, outcomeFailed p = true)
    (hb : ∀ b ∈ o.brave.toList, outcomeFailed b = true)
    (hs : ∀ s ∈ o.serper.toList, outcomeFailed s = true) :
    (fetchFromEngines o).1 = [] := by
  unfold fetchFromEngines
  simp only
  rw [googleContribution_failed o.googlePages hg,
    optionalEngineContribution_failed "Brave" o.brave hb,
    optionalEngineContribution_failed "Serper" o.serper hs]
  rfl

theorem routeCacheGet_setRouteCache {T : Type} (c : RouteCache T) (now : Nat)
    (key : String) (data : T) (ttl : Nat) :
    routeCacheGet (setRouteCache c now key data ttl) key =
      some { data := data, timestamp := now, ttl := ttl } := by
  unfold setRouteCache routeCacheSet
  by_cases h : ((key, ({ data := data, timestamp := now, ttl := ttl } :
      RouteCacheEntry T)) :: routeCacheDelete c key).length > 100
  · rw [if_pos h]
    unfold routeCacheGet
    rw [List.filter_cons]
    simp [Nat.sub_self]
  · rw [if_neg h]
    unfold routeCacheGet
    simp

theorem braveCacheGet_setCachedRawResults (c : BraveRawCache) (now : Nat)
    (key : String) (v : BraveCachedResults)
    (hfresh : now - v.fetchedAt ≤ RAW_CACHE_TTL) :
    braveCacheGet (setCachedRawResults c now key v) key = some v := by
  unfold setCachedRawResults braveCacheSet
  by_cases h : ((key, v) :: braveCacheDelete c key).length > 50
  · rw [if_pos h]
    unfold braveCacheGet
    rw [List.filter_cons]
    simp [hfresh]
  · rw [if_neg h]
    unfold braveCacheGet
    simp

theorem fetchFromBraveAPI_allResults_fields (upstream : List BraveImageResult)
    (request : SearchRequest) (now : Nat) :
    ∀ r ∈ (fetchFromBraveAPI upstream request now).1.allResults,
      r.width = 0 ∧ r.height = 0 ∧ r.sourceEngine = "brave" := by
  intro r hr
  unfold fetchFromBraveAPI at hr
  simp only at hr
  rcases List.mem_map.mp hr with ⟨p, _, rfl⟩
  exact ⟨rfl, rfl, rfl⟩

theorem snd_mem_of_mem_enumFrom {α : Type} {p : Nat × α} :
    ∀ {l : List α} {n : Nat}, p ∈ l.enumFrom n → p.2 ∈ l := by
  intro l
  induction l with
  | nil => intro n h; simp [List.enumFrom] at h
  | cons x xs ih =>
    intro n h
    rcases List.mem_cons.mp h with rfl | h
    · exact List.mem_cons_self _ _
    · exact List.mem_cons_of_mem _ (ih h)

theorem getCachedRawResults_some_mem (cache : BraveRawCache) (now : Nat)
    (key : String) (c : BraveCachedResults) (cache1 : BraveRawCache)
    (h : getCachedRawResults cache now key = (some c, cache1)) :
    ∃ e ∈ cache, e.2 = c := by
  unfold getCachedRawResults at h
  rcases hbc : braveCacheGet cache key with _ | v
  · simp only [hbc] at h
    exact absurd (congrArg Prod.fst h) (by simp)
  · simp only [hbc] at h
    by_cases hexp : now - v.fetchedAt > RAW_CACHE_TTL
    · rw [if_pos hexp] at h
      simp at h
    · rw [if_neg hexp] at h
      have h1 := congrArg Prod.fst h
      simp only [Option.some.injEq] at h1
      subst h1
      unfold braveCacheGet at hbc
      rcases hf : cache.find? (fun p => p.1 == key) with _ | e
      · rw [hf] at hbc
        simp at hbc
      · rw [hf] at hbc
        simp only [Option.map_some', Option.some.injEq] at hbc
        exact ⟨e, List.mem_of_find?_eq_some hf, hbc⟩

theorem buildBraveResponse_results_zero_dims (cached : BraveCachedResults)
    (request : SearchRequest)
    (hz : ∀ x ∈ cached.allResults, x.width = 0 ∧ x.height = 0) :
    ∀ r ∈ responseResults (buildBraveResponse cached request),
      r.width = 0 ∧ r.height = 0 := by
  intro r hr
  unfold buildBraveResponse at hr
  by_cases h0 : cached.totalResults = 0
  · rw [if_pos h0] at hr
    simp [responseResults] at hr
  · rw [if_neg h0] at hr
    simp only [responseResults] at hr
    rcases List.mem_map.mp hr with ⟨p, hp, rfl⟩
    have h2 : p.2 ∈ cached.allResults :=
      ((List.take_sublist _ _).trans (List.drop_sublist _ _)).mem
        (snd_mem_of_mem_enumFrom hp)
    exact ⟨(hz _ h2).1, (hz _ h2).2⟩

theorem buildBraveResponse_totalResults (cached : BraveCachedResults)
    (request : SearchRequest) :
    (responsePagination (buildBraveResponse cached request)).map
      (fun p => p.totalResults) = some cached.totalResults := by
  unfold buildBraveResponse
  by_cases h0 : cached.totalResults = 0
  · rw [if_pos h0]
    simp [responsePagination, bravePagination, h0]
  · rw [if_neg h0]
    simp [responsePagination, bravePagination, h0]

theorem buildBraveResponse_results_slice (cached : BraveCachedResults)
    (request : SearchRequest)
    (hlen : cached.totalResults = cached.allResults.length) :
    (responseResults (buildBraveResponse cached request)).map stripId =
      ((cached.allResults.drop (jsOrNat request.start 1 - 1)).take
        (jsOrNat request.count 10)).map stripId := by
  unfold buildBraveResponse
  by_cases h0 : cached.totalResults = 0
  · rw [if_pos h0]
    have hl : cached.allResults.length = 0 := by rw [← hlen, h0]
    have hnil : cached.allResults = [] := List.eq_nil_of_length_eq_zero hl
    rw [hnil]
    simp [responseResults]
  · rw [if_neg h0]
    simp only [responseResults]
    rw [List.map_map]
    have hcomp : (stripId ∘ (fun p : Nat × IntermediarySearchResult =>
        { p.2 with id := "brave_" ++ toString (jsOrNat request.start 1 + p.1) })) =
        (fun p : Nat × IntermediarySearchResult => stripId p.2) := rfl
    rw [hcomp]
    exact enumFrom_map_comp_snd stripId _ 0

/-! ## Claim theorems -/

/-- C1 (counterexample): the claim fails as stated. In the Brave adapter's
empty-result branch the window hard-codes `currentPage = 1`, so for
`count = 10`, `start = 11`, `totalResults = 0` the returned `currentPage`
is not `ceil(start/count) = 2`. -/
theorem brave_empty_branch_breaks_currentPage_formula :
    (bravePagination (some 10) (some 11) 0).currentPage ≠ ceilDiv 11 10 := by
  decide

/-- C1 (amended): for every positive `count` and `start`, the pagination
windows of the aggregated service and the Google adapter satisfy
`currentPage = ceil(start/count)`, `totalPages = ceil(totalResults/count)`
and `hasNextPage ↔ currentPage < totalPages` for every `totalResults`, and
the Brave adapter's window satisfies them whenever `totalResults > 0`
(its empty-result branch instead returns the fixed window with
`currentPage = 1`). -/
theorem paginationEngine_window_correct (c s t : Nat) (hc : 0 < c) (hs : 0 < s) :
    ((aggregatedPagination (some c) (some s) t).currentPage = ceilDiv s c ∧
     (aggregatedPagination (some c) (some s) t).totalPages = ceilDiv t c ∧
     ((aggregatedPagination (some c) (some s) t).hasNextPage = true ↔
      ceilDiv s c < ceilDiv t c)) ∧
    ((googlePagination (some c) (some s) t).currentPage = ceilDiv s c ∧
     (googlePagination (some c) (some s) t).totalPages = ceilDiv t c ∧
     ((googlePagination (some c) (some s) t).hasNextPage = true ↔
      ceilDiv s c < ceilDiv t c)) ∧
    (0 < t →
     (bravePagination (some c) (some s) t).currentPage = ceilDiv s c ∧
     (bravePagination (some c) (some s) t).totalPages = ceilDiv t c ∧
     ((bravePagination (some c) (some s) t).hasNextPage = true ↔
      ceilDiv s c < ceilDiv t c)) := by
  have hc' : c ≠ 0 := hc.ne'
  have hs' : s ≠ 0 := hs.ne'
  refine ⟨?_, ?_, ?_⟩
  · simp [aggregatedPagination, jsPosOrNat, hc', hs', hc, hs]
  · simp [googlePagination, jsOrNat, hc', hs']
  · intro ht
    simp [bravePagination, jsOrNat, hc', hs', ht.ne']

/-- C1 (witness): the amended theorem at `count = 10`, `start = 11`,
`totalResults = 25`. -/
theorem paginationEngine_window_correct_witness :
    (0 < 10 ∧ 0 < 11) ∧
    ((aggregatedPagination (some 10) (some 11) 25).currentPage = ceilDiv 11 10 ∧
     (aggregatedPagination (some 10) (some 11) 25).totalPages = ceilDiv 25 10 ∧
     ((aggregatedPagination (some 10) (some 11) 25).hasNextPage = true ↔
      ceilDiv 11 10 < ceilDiv 25 10)) ∧
    ((googlePagination (some 10) (some 11) 25).currentPage = ceilDiv 11 10 ∧
     (googlePagination (some 10) (some 11) 25).totalPages = ceilDiv 25 10 ∧
     ((googlePagination (some 10) (some 11) 25).hasNextPage = true ↔
      ceilDiv 11 10 < ceilDiv 25 10)) ∧
    (0 < 25 →
     (bravePagination (some 10) (some 11) 25).currentPage = ceilDiv 11 10 ∧
     (bravePagination (some 10) (some 11) 25).totalPages = ceilDiv 25 10 ∧
     ((bravePagination (some 10) (some 11) 25).hasNextPage = true ↔
      ceilDiv 11 10 < ceilDiv 25 10)) :=
  ⟨⟨by decide, by decide⟩,
   paginationEngine_window_correct 10 11 25 (by decide) (by decide)⟩

/-- C2: over the provider-ordered merge produced by `fetchFromEngines`
(Google pages first, then Brave, then Serper), deduplication keeps exactly
the first occurrence of each distinct result URL and discards every later
entry with that URL: the output URLs are pairwise distinct, the output is a
subsequence of the input, every input URL is still represented, and every
retained entry is the first entry of the merge carrying its URL. -/
theorem deduplication_keeps_first_url_occurrence (o : EngineOutcomes) :
    ((deduplicateResults (fetchFromEngines o).1).map (fun r => r.url)).Nodup ∧
    (deduplicateResults (fetchFromEngines o).1).Sublist (fetchFromEngines o).1 ∧
    (∀ x ∈ (fetchFromEngines o).1,
      ∃ y ∈ deduplicateResults (fetchFromEngines o).1, y.url = x.url) ∧
    (∀ y ∈ deduplicateResults (fetchFromEngines o).1,
      ((fetchFromEngines o).1).find? (fun x => x.url == y.url) = some y) := by
  refine ⟨nodup_urls_dedupGo [] _, dedupGo_sublist [] _, ?_, ?_⟩
  · intro x hx
    exact url_covered_dedupGo hx (by simp)
  · intro y hy
    exact find?_eq_of_mem_dedupGo hy

/-- C2 (witness): on a merge where the Brave result `bR1` repeats the URL
of the Google result `gR1`, the Google entry is the one retained. -/
theorem deduplication_keeps_first_url_occurrence_witness :
    bR1 ∈ (fetchFromEngines outcomesSample).1 ∧
    gR1 ∈ deduplicateResults (fetchFromEngines outcomesSample).1 ∧
    ((fetchFromEngines outcomesSample).1).find? (fun x => x.url == gR1.url) =
      some gR1 ∧
    bR1 ∉ deduplicateResults (fetchFromEngines outcomesSample).1 ∧
    ((deduplicateResults (fetchFromEngines outcomesSample).1).map
      (fun r => r.url)).Nodup :=
  ⟨by decide, by decide,
   (deduplication_keeps_first_url_occurrence outcomesSample).2.2.2 gR1 (by decide),
   by decide,
   (deduplication_keeps_first_url_occurrence outcomesSample).1⟩

/-- C3: the ranking step sorts by `width*height` descending with
zero/unknown resolutions last: the output keys are pairwise descending, a
zero-key entry is never followed by a nonzero-key entry, adjacent pairs
with fully known resolution have descending pixel products, entries with
equal sort keys keep their relative input order (stability, stated per key
value via `filter`), and the output is a permutation of the input. -/
theorem ranking_by_resolution_desc_stable (l : List IntermediarySearchResult) :
    (optimizeResults l).Pairwise resolutionGE ∧
    (optimizeResults l).Pairwise
      (fun a b => resolutionKey a = 0 → resolutionKey b = 0) ∧
    List.Chain'
      (fun a b => a.width ≠ 0 → a.height ≠ 0 → b.width ≠ 0 → b.height ≠ 0 →
        b.width * b.height ≤ a.width * a.height) (optimizeResults l) ∧
    (∀ k, (optimizeResults l).filter (fun r => resolutionKey r = k) =
      l.filter (fun r => resolutionKey r = k)) ∧
    (optimizeResults l).Perm l := by
  refine ⟨optimizeResults_sorted l, ?_, ?_, optimizeResults_stable l,
    optimizeResults_perm l⟩
  · refine (optimizeResults_sorted l).imp ?_
    intro a b h ha
    unfold resolutionGE at h
    omega
  · refine ((optimizeResults_sorted l).chain').imp ?_
    intro a b h hwa hha hwb hhb
    unfold resolutionGE resolutionKey at h
    rw [if_pos hwa, if_pos hha, if_pos hwb, if_pos hhb] at h
    exact h

/-- C3 (witness): on `[gR1, gR2, bR2]` (keys 480000, 2073600, 0) the
ranking returns `[gR2, gR1, bR2]`. -/
theorem ranking_by_resolution_desc_stable_witness :
    (optimizeResults [gR1, gR2, bR2]).Pairwise resolutionGE ∧
    ((optimizeResults [gR1, gR2, bR2]).filter (fun r => resolutionKey r = 0) =
      [gR1, gR2, bR2].filter (fun r => resolutionKey r = 0)) ∧
    optimizeResults [gR1, gR2, bR2] = [gR2, gR1, bR2] :=
  ⟨(ranking_by_resolution_desc_stable [gR1, gR2, bR2]).1,
   (ranking_by_resolution_desc_stable [gR1, gR2, bR2]).2.2.2.1 0,
   by decide⟩

/-- C8 (counterexample): with `totalResults = 0`, `count = 10`, `start = 11`
the aggregated service's window has `hasPreviousPage = true`
(`currentPage = ceil(11/10) = 2 > 1`), contradicting the claim that both
flags are false. -/
theorem aggregated_zero_total_hasPreviousPage_true :
    (aggregatedPagination (some 10) (some 11) 0).hasPreviousPage = true := by
  decide

/-- C8 (amended): with `totalResults = 0` and positive `count`/`start`,
both the aggregated service and the Brave adapter return `totalPages = 0`
and `hasNextPage = false`; the Brave adapter also always returns
`hasPreviousPage = false`, while the aggregated service returns
`hasPreviousPage = false` exactly when `start ≤ count` (first page). -/
theorem zero_total_results_window (c s : Nat) (hc : 0 < c) (hs : 0 < s) :
    (aggregatedPagination (some c) (some s) 0).totalPages = 0 ∧
    (aggregatedPagination (some c) (some s) 0).hasNextPage = false ∧
    ((aggregatedPagination (some c) (some s) 0).hasPreviousPage = false ↔ s ≤ c) ∧
    (bravePagination (some c) (some s) 0).totalPages = 0 ∧
    (bravePagination (some c) (some s) 0).hasNextPage = false ∧
    (bravePagination (some c) (some s) 0).hasPreviousPage = false := by
  have hc' : c ≠ 0 := hc.ne'
  have hs' : s ≠ 0 := hs.ne'
  have htp : ceilDiv 0 c = 0 := by
    unfold ceilDiv
    exact Nat.div_eq_of_lt (by omega)
  have hprev : ceilDiv s c ≤ 1 ↔ s ≤ c := by
    rw [ceilDiv_le_iff s c 1 hc, Nat.one_mul]
  refine ⟨?_, ?_, ?_, ?_, ?_, ?_⟩
  · simp [aggregatedPagination, jsPosOrNat, hc', hs', hc, hs, htp]
  · simp [aggregatedPagination, jsPosOrNat, hc', hs', hc, hs, htp]
  · simp only [aggregatedPagination, jsPosOrNat, hc', hs', hc, hs, and_true,
      ne_eq, not_false_eq_true, if_true, if_pos hc, decide_eq_false_iff_not,
      Nat.not_lt]
    exact hprev
  · simp [bravePagination]
  · simp [bravePagination]
  · simp [bravePagination]

/-- C8 (witness): the amended theorem at `count = 10`, `start = 11`. -/
theorem zero_total_results_window_witness :
    (0 < 10 ∧ 0 < 11) ∧
    ((aggregatedPagination (some 10) (some 11) 0).totalPages = 0 ∧
     (aggregatedPagination (some 10) (some 11) 0).hasNextPage = false ∧
     ((aggregatedPagination (some 10) (some 11) 0).hasPreviousPage = false ↔
      11 ≤ 10) ∧
     (bravePagination (some 10) (some 11) 0).totalPages = 0 ∧
     (bravePagination (some 10) (some 11) 0).hasNextPage = false ∧
     (bravePagination (some 10) (some 11) 0).hasPreviousPage = false) :=
  ⟨⟨by decide, by decide⟩, zero_total_results_window 10 11 (by decide) (by decide)⟩

/-- C4: on a raw-results-cache miss for `(query, orientation)`, the Brave
adapter performs exactly one upstream fetch, whose batch size is the
hard-coded maximum 100 and which does not depend on the requested
`count`/`start`; it stores the filtered conversion of the upstream results
(every stored entry has a valid image URL and a nonempty thumbnail, and the
stored length is the filtered count); the response reports the filtered
set's length as `totalResults`; the served page is the slice
`[start-1, start-1+count)` of the stored set (up to the id renumbering);
and any later request hitting the same cache key within the TTL performs no
upstream fetch. -/
theorem brave_bulk_fetch_once_and_slice
    (upstream : List BraveImageResult) (cache : BraveRawCache) (now : Nat)
    (request : SearchRequest)
    (hvalid : braveValidateSearchRequest request = none)
    (hmiss : (getCachedRawResults cache now
      (createRawResultsCacheKey request.query request.orientation)).1 = none) :
    (braveSearch upstream cache now request).upstreamCalls =
      [(fetchFromBraveAPI upstream request now).2] ∧
    (fetchFromBraveAPI upstream request now).2.count = 100 ∧
    (∀ c s, (fetchFromBraveAPI upstream
        { request with count := c, start := s } now).2 =
      (fetchFromBraveAPI upstream request now).2) ∧
    braveCacheGet (braveSearch upstream cache now request).cache
        (createRawResultsCacheKey request.query request.orientation) =
      some (fetchFromBraveAPI upstream request now).1 ∧
    (fetchFromBraveAPI upstream request now).1.allResults.length =
      (upstream.filter braveResultFilter).length ∧
    (∀ x ∈ (fetchFromBraveAPI upstream request now).1.allResults,
      isValidImageUrl x.url = true ∧ x.thumbnailUrl ≠ "") ∧
    (responsePagination (braveSearch upstream cache now request).response).map
        (fun p => p.totalResults) =
      some (fetchFromBraveAPI upstream request now).1.allResults.length ∧
    (responseResults (braveSearch upstream cache now request).response).map stripId =
      (((fetchFromBraveAPI upstream request now).1.allResults.drop
          (jsOrNat request.start 1 - 1)).take (jsOrNat request.count 10)).map
        stripId ∧
    (∀ (upstream2 : List BraveImageResult) (now2 : Nat) (request2 : SearchRequest),
      braveValidateSearchRequest request2 = none →
      createRawResultsCacheKey request2.query request2.orientation =
        createRawResultsCacheKey request.query request.orientation →
      now2 - now ≤ RAW_CACHE_TTL →
      (braveSearch upstream2 (braveSearch upstream cache now request).cache
          now2 request2).upstreamCalls = []) := by
  rcases hg : getCachedRawResults cache now
      (createRawResultsCacheKey request.query request.orientation) with ⟨a, cache1⟩
  have ha : a = none := by
    have h := hmiss
    rw [hg] at h
    exact h
  subst ha
  have hfa : (fetchFromBraveAPI upstream request now).1.fetchedAt = now := rfl
  have hsearch : braveSearch upstream cache now request =
      { response :=
          buildBraveResponse (fetchFromBraveAPI upstream request now).1 request
        cache := setCachedRawResults cache1 now
          (createRawResultsCacheKey request.query request.orientation)
          (fetchFromBraveAPI upstream request now).1
        upstreamCalls := [(fetchFromBraveAPI upstream request now).2] } := by
    unfold braveSearch
    rw [hvalid, hg]
  have hstore : braveCacheGet
      (setCachedRawResults cache1 now
        (createRawResultsCacheKey request.query request.orientation)
        (fetchFromBraveAPI upstream request now).1)
      (createRawResultsCacheKey request.query request.orientation) =
      some (fetchFromBraveAPI upstream request now).1 := by
    refine braveCacheGet_setCachedRawResults cache1 now _ _ ?_
    rw [hfa, Nat.sub_self]
    exact Nat.zero_le _
  rw [hsearch]
  refine ⟨rfl, rfl, fun c s => rfl, hstore, ?_, ?_, ?_, ?_, ?_⟩
  · show (List.map _ (List.enum _)).length = _
    rw [List.length_map, List.enum_length]
  · intro x hx
    rcases List.mem_map.mp hx with ⟨p, hp, rfl⟩
    have hpf : p.2 ∈ upstream.filter braveResultFilter := snd_mem_of_mem_enumFrom hp
    have hflt := (List.mem_filter.mp hpf).2
    unfold braveResultFilter at hflt
    rw [Bool.and_eq_true] at hflt
    refine ⟨hflt.1, ?_⟩
    rcases hts : p.2.thumbnailSrc with _ | s
    · rw [hts] at hflt
      exact absurd hflt.2 (by simp)
    · have hcv : (braveConvert p.1 p.2).thumbnailUrl = s := by
        unfold braveConvert
        simp [hts]
      rw [hcv]
      intro hse
      subst hse
      rw [hts] at hflt
      simp at hflt
  · rw [buildBraveResponse_totalResults]
    rfl
  · exact buildBraveResponse_results_slice _ request rfl
  · intro upstream2 now2 request2 hv2 hkey2 hlive
    have hgot : getCachedRawResults
        (setCachedRawResults cache1 now
          (createRawResultsCacheKey request.query request.orientation)
          (fetchFromBraveAPI upstream request now).1) now2
        (createRawResultsCacheKey request.query request.orientation) =
        (some (fetchFromBraveAPI upstream request now).1,
         setCachedRawResults cache1 now
           (createRawResultsCacheKey request.query request.orientation)
           (fetchFromBraveAPI upstream request now).1) := by
      unfold getCachedRawResults
      simp only [hstore]
      rw [hfa, if_neg (Nat.not_lt.mpr hlive)]
    unfold braveSearch
    rw [hv2, hkey2, hgot]

/-- C4 (witness): the theorem at the concrete upstream sample (one valid
result, one with a non-image URL, one without thumbnail) on an empty cache. -/
theorem brave_bulk_fetch_once_and_slice_witness :
    (braveValidateSearchRequest braveRequestSample = none ∧
     (getCachedRawResults [] 0 (createRawResultsCacheKey braveRequestSample.query
       braveRequestSample.orientation)).1 = none) ∧
    ((braveSearch braveUpstreamSample [] 0 braveRequestSample).upstreamCalls =
      [(fetchFromBraveAPI braveUpstreamSample braveRequestSample 0).2] ∧
     (fetchFromBraveAPI braveUpstreamSample braveRequestSample 0).2.count = 100 ∧
     (fetchFromBraveAPI braveUpstreamSample braveRequestSample 0).1.allResults.length
       = (braveUpstreamSample.filter braveResultFilter).length) :=
  ⟨⟨by decide, rfl⟩,
   ⟨(brave_bulk_fetch_once_and_slice braveUpstreamSample [] 0 braveRequestSample
       (by decide) rfl).1,
    (brave_bulk_fetch_once_and_slice braveUpstreamSample [] 0 braveRequestSample
       (by decide) rfl).2.1,
    (brave_bulk_fetch_once_and_slice braveUpstreamSample [] 0 braveRequestSample
       (by decide) rfl).2.2.2.2.1⟩⟩

/-- C5 (counterexample): a request with `count = 0` and `start = 0` is not
rejected: adapter validation accepts it (the zero is falsy in JS and skips
the range checks) and the aggregated engine answers it successfully. -/
theorem zero_count_start_not_rejected :
    googleValidateSearchRequest zeroCountRequest = none ∧
    braveValidateSearchRequest zeroCountRequest = none ∧
    (aggregatedSearch emptyDB 0 outcomesSample zeroCountRequest none).response.success
      = true ∧
    (aggregatedSearch emptyDB 0 outcomesSample zeroCountRequest none).response.error
      = none := by
  refine ⟨by decide, by decide, ?_, ?_⟩ <;> rfl

/-- C5 (amended): a request with `count = 0` or `start = 0` passes adapter
validation (zero is treated as absent) and the aggregated engine treats it
exactly like a request with the defaults `count = 10`, `start = 1`;
no ValidationError is produced. -/
theorem zero_count_start_treated_as_defaults (request : SearchRequest) (db : AggDB)
    (now : Nat) (o : EngineOutcomes) (uid : Option String)
    (hq1 : request.query ≠ "") (hq2 : (jsTrim request.query).length ≠ 0)
    (hq3 : request.query.length ≤ 200)
    (ho : orientationCheckFails request.orientation = false)
    (hcount : request.count = some 0) (hstart : request.start = some 0) :
    googleValidateSearchRequest request = none ∧
    braveValidateSearchRequest request = none ∧
    jsPosOrNat request.count 10 = 10 ∧
    jsPosOrNat request.start 1 = 1 ∧
    aggregatedSearch db now o request uid =
      aggregatedSearch db now o
        { request with count := some 10, start := some 1 } uid := by
  obtain ⟨q, orient, cnt, st, tb⟩ := request
  simp only at hq1 hq2 hq3 ho hcount hstart
  subst hcount
  subst hstart
  have hq4 : ¬ q.length > 200 := by omega
  have hq5 : ¬ q.length > 400 := by omega
  refine ⟨?_, ?_, rfl, rfl, rfl⟩
  · unfold googleValidateSearchRequest
    rw [if_neg (by simp [hq1, hq2]), if_neg hq4]
    simp [countCheckFails, startCheckFails, ho]
  · unfold braveValidateSearchRequest
    rw [if_neg (by simp [hq1, hq2]), if_neg hq5]
    simp [countCheckFails, startCheckFails, ho]

/-- C5 (witness): the amended theorem at the concrete zero request. -/
theorem zero_count_start_treated_as_defaults_witness :
    (zeroCountRequest.query ≠ "" ∧ (jsTrim zeroCountRequest.query).length ≠ 0 ∧
     zeroCountRequest.query.length ≤ 200 ∧
     orientationCheckFails zeroCountRequest.orientation = false ∧
     zeroCountRequest.count = some 0 ∧ zeroCountRequest.start = some 0) ∧
    (googleValidateSearchRequest zeroCountRequest = none ∧
     braveValidateSearchRequest zeroCountRequest = none ∧
     jsPosOrNat zeroCountRequest.count 10 = 10 ∧
     jsPosOrNat zeroCountRequest.start 1 = 1 ∧
     aggregatedSearch emptyDB 5 outcomesSample zeroCountRequest none =
       aggregatedSearch emptyDB 5 outcomesSample
         { zeroCountRequest with count := some 10, start := some 1 } none) :=
  ⟨⟨by decide, by decide, by decide, by decide, rfl, rfl⟩,
   zero_count_start_treated_as_defaults zeroCountRequest emptyDB 5 outcomesSample
     none (by decide) (by decide) (by decide) (by decide) rfl rfl⟩

/-- C6 (counterexample): with every enabled provider failing (all five
Google page calls, Brave and Serper all throw) and an uncached fingerprint,
the aggregated search still returns `success = true` with an empty result
list and no error — there is no aggregate failure. -/
theorem all_providers_fail_still_success :
    (aggregatedSearch emptyDB 0 outcomesAllFail sampleRequest none).response.success
      = true ∧
    (aggregatedSearch emptyDB 0 outcomesAllFail sampleRequest none).response.error
      = none ∧
    responseResults
      (aggregatedSearch emptyDB 0 outcomesAllFail sampleRequest none).response
      = [] := by
  refine ⟨?_, ?_, ?_⟩ <;> rfl

/-- C6 (amended): when every enabled provider's fetch fails (throws or
returns an unsuccessful response) and the fingerprint is uncached, the
engine does not return an error: `fetchFromEngines` merely collects the
messages for logging and returns an empty merge, and `search` answers with
`success = true`, an empty page and `totalResults = 0`. -/
theorem all_providers_failed_returns_empty_success (db : AggDB) (now : Nat)
    (o : EngineOutcomes) (request : SearchRequest) (uid : Option String)
    (hg : ∀ p ∈ o.googlePages, outcomeFailed p = true)
    (hb : ∀ b ∈ o.brave.toList, outcomeFailed b = true)
    (hs : ∀ s ∈ o.serper.toList, outcomeFailed s = true)
    (hmeta : getAggregatedResult db (generateAggId request) = none)
    (hitems : db.items.filter (fun p => p.1 == generateAggId request) = []) :
    (aggregatedSearch db now o request uid).response.success = true ∧
    (aggregatedSearch db now o request uid).response.error = none ∧
    responseResults (aggregatedSearch db now o request uid).response = [] ∧
    (responsePagination (aggregatedSearch db now o request uid).response).map
      (fun p => p.totalResults) = some 0 := by
  have hempty : (fetchFromEngines o).1 = [] := fetchFromEngines_all_failed o hg hb hs
  have hstore : ∀ meta : AggregatedMeta,
      (storeAggregatedResult db meta []).items = db.items := by
    intro meta
    unfold storeAggregatedResult
    simp
  have hpage : ∀ (meta : AggregatedMeta) (off lim : Nat),
      getPaginatedResults (storeAggregatedResult db meta []) (generateAggId request)
        off lim = [] := by
    intro meta off lim
    unfold getPaginatedResults
    rw [hstore, hitems]
    simp
  have htot : ∀ meta : AggregatedMeta,
      getTotalResults (storeAggregatedResult db meta []) (generateAggId request) = 0 := by
    intro meta
    unfold getTotalResults
    rw [hstore, hitems]
    rfl
  unfold aggregatedSearch
  simp only [hmeta, Option.isNone_none, eq_self_iff_true, if_true, hempty,
    show deduplicateResults [] = [] from rfl,
    show optimizeResults [] = [] from rfl, hpage, htot]
  exact ⟨trivial, trivial, rfl, rfl⟩

/-- C6 (witness): the amended theorem at the concrete all-fail outcomes. -/
theorem all_providers_failed_returns_empty_success_witness :
    ((∀ p ∈ outcomesAllFail.googlePages, outcomeFailed p = true) ∧
     getAggregatedResult emptyDB (generateAggId sampleRequest) = none ∧
     emptyDB.items.filter (fun p => p.1 == generateAggId sampleRequest) = []) ∧
    ((aggregatedSearch emptyDB 7 outcomesAllFail sampleRequest none).response.success
       = true ∧
     responseResults
       (aggregatedSearch emptyDB 7 outcomesAllFail sampleRequest none).response
       = []) :=
  ⟨⟨by decide, by decide, by decide⟩,
   ⟨(all_providers_failed_returns_empty_success emptyDB 7 outcomesAllFail
       sampleRequest none (by decide) (by decide) (by decide)
       (by decide) (by decide)).1,
    (all_providers_failed_returns_empty_success emptyDB 7 outcomesAllFail
       sampleRequest none (by decide) (by decide) (by decide)
       (by decide) (by decide)).2.2.1⟩⟩

/-- C9: the route-level cache wrapper stores whatever the wrapped operation
returned — the `success` flag is never inspected — under the search TTL
(604800 s), and a later identical request within that TTL is answered with
the cached value (even a cached failure) without running the operation. -/
theorem withCache_caches_any_result
    (cache : RouteCache (ApiResponse IntermediarySearchResponse)) (now : Nat)
    (key : String) (r : ApiResponse IntermediarySearchResponse)
    (hmiss : (getFromCache cache now key).1 = none) :
    (withCache cache now key r CacheType.search).1 = (r, false) ∧
    (withCache cache now key r CacheType.search).2.2 = true ∧
    routeCacheGet (withCache cache now key r CacheType.search).2.1 key =
      some { data := r, timestamp := now, ttl := SEARCH_CACHE_TTL } ∧
    (∀ (now2 : Nat) (r2 : ApiResponse IntermediarySearchResponse),
      now2 - now ≤ SEARCH_CACHE_TTL * 1000 →
      withCache (withCache cache now key r CacheType.search).2.1 now2 key r2
          CacheType.search =
        ((r, true), (withCache cache now key r CacheType.search).2.1, false)) := by
  rcases hg : getFromCache cache now key with ⟨a, cache1⟩
  have ha : a = none := by
    have := hmiss
    rw [hg] at this
    exact this
  subst ha
  have hw : withCache cache now key r CacheType.search =
      ((r, false), setRouteCache cache1 now key r SEARCH_CACHE_TTL, true) := by
    unfold withCache
    rw [hg]
    rfl
  rw [hw]
  have hget : routeCacheGet (setRouteCache cache1 now key r SEARCH_CACHE_TTL) key =
      some { data := r, timestamp := now, ttl := SEARCH_CACHE_TTL } :=
    routeCacheGet_setRouteCache cache1 now key r SEARCH_CACHE_TTL
  refine ⟨rfl, rfl, hget, ?_⟩
  intro now2 r2 hlive
  have hget2 : getFromCache (setRouteCache cache1 now key r SEARCH_CACHE_TTL) now2 key =
      (some r, setRouteCache cache1 now key r SEARCH_CACHE_TTL) := by
    unfold getFromCache
    rw [hget]
    simp only
    rw [if_neg (by simpa using Nat.not_lt.mpr hlive)]
  unfold withCache
  rw [hget2]

/-- C9 (witness): a failed result (`success = false`) cached at time 1000
is served back, in place of the fresh successful retry, at the latest
moment inside the TTL. -/
theorem withCache_caches_any_result_witness :
    (getFromCache emptyRouteCache 1000 "search:k").1 = none ∧
    ((withCache emptyRouteCache 1000 "search:k" failedResponse CacheType.search).1 =
      (failedResponse, false) ∧
     withCache
        (withCache emptyRouteCache 1000 "search:k" failedResponse
          CacheType.search).2.1
        (1000 + SEARCH_CACHE_TTL * 1000) "search:k" freshOpResponse
        CacheType.search =
      ((failedResponse, true),
       (withCache emptyRouteCache 1000 "search:k" failedResponse
         CacheType.search).2.1, false)) :=
  ⟨rfl,
   ⟨(withCache_caches_any_result emptyRouteCache 1000 "search:k" failedResponse
       rfl).1,
    (withCache_caches_any_result emptyRouteCache 1000 "search:k" failedResponse
       rfl).2.2.2 (1000 + SEARCH_CACHE_TTL * 1000) freshOpResponse (by omega)⟩⟩

/-- C10: every result the Brave adapter produces has `width = 0` and
`height = 0` (the upstream conversion hard-codes both, and served pages
only renumber ids), and consequently in any ranked list whose Brave-sourced
entries have zero dimensions, no Brave-sourced entry precedes an entry with
known nonzero resolution. -/
theorem brave_results_zero_resolution_rank_last :
    (∀ (upstream : List BraveImageResult) (request : SearchRequest) (now : Nat),
      ∀ r ∈ (fetchFromBraveAPI upstream request now).1.allResults,
        r.width = 0 ∧ r.height = 0 ∧ r.sourceEngine = "brave") ∧
    (∀ (upstream : List BraveImageResult) (cache : BraveRawCache) (now : Nat)
      (request : SearchRequest),
      (∀ e ∈ cache, ∀ x ∈ e.2.allResults, x.width = 0 ∧ x.height = 0) →
      ∀ r ∈ responseResults (braveSearch upstream cache now request).response,
        r.width = 0 ∧ r.height = 0) ∧
    (∀ l : List IntermediarySearchResult,
      (∀ r ∈ l, r.sourceEngine = "brave" → r.width = 0 ∧ r.height = 0) →
      (optimizeResults l).Pairwise
        (fun a b => a.sourceEngine = "brave" → resolutionKey b = 0)) := by
  refine ⟨fetchFromBraveAPI_allResults_fields, ?_, ?_⟩
  · intro upstream cache now request hcache r hr
    unfold braveSearch at hr
    cases hv : braveValidateSearchRequest request with
    | some err =>
      rw [hv] at hr
      simp [responseResults] at hr
    | none =>
      rw [hv] at hr
      rcases hg : getCachedRawResults cache now
          (createRawResultsCacheKey request.query request.orientation) with
        ⟨a, cache1⟩
      rw [hg] at hr
      cases a with
      | some cached =>
        refine buildBraveResponse_results_zero_dims cached request ?_ r hr
        intro x hx
        rcases getCachedRawResults_some_mem cache now
            (createRawResultsCacheKey request.query request.orientation)
            cached cache1 hg with ⟨e, he, hec⟩
        refine hcache e he x ?_
        rw [hec]
        exact hx
      | none =>
        refine buildBraveResponse_results_zero_dims _ request ?_ r hr
        intro x hx
        have hfields := fetchFromBraveAPI_allResults_fields upstream request now x hx
        exact ⟨hfields.1, hfields.2.1⟩
  · intro l hl
    refine List.Pairwise.imp_of_mem ?_ (optimizeResults_sorted l)
    intro a b ha hb hR hbrave
    have haz : a.width = 0 ∧ a.height = 0 :=
      hl a ((optimizeResults_perm l).mem_iff.mp ha) hbrave
    have hka : resolutionKey a = 0 := by
      unfold resolutionKey
      simp [haz.1]
    unfold resolutionGE at hR
    omega

/-- C10 (witness): the concrete Brave fetch yields zero-dimension,
brave-tagged results, and ranking a mixed list puts the Brave entries after
the entry with known resolution. -/
theorem brave_results_zero_resolution_rank_last_witness :
    (braveConvert 0 braveUp1 ∈
      (fetchFromBraveAPI braveUpstreamSample braveRequestSample 3).1.allResults ∧
     (braveConvert 0 braveUp1).width = 0 ∧ (braveConvert 0 braveUp1).height = 0 ∧
     (braveConvert 0 braveUp1).sourceEngine = "brave") ∧
    ((∀ r ∈ [bR2, gR2], r.sourceEngine = "brave" → r.width = 0 ∧ r.height = 0) ∧
     (optimizeResults [bR2, gR2]).Pairwise
       (fun a b => a.sourceEngine = "brave" → resolutionKey b = 0) ∧
     optimizeResults [bR2, gR2] = [gR2, bR2]) :=
  ⟨⟨by decide,
    (fetchFromBraveAPI_allResults_fields braveUpstreamSample braveRequestSample 3
       (braveConvert 0 braveUp1) (by decide)).1,
    (fetchFromBraveAPI_allResults_fields braveUpstreamSample braveRequestSample 3
       (braveConvert 0 braveUp1) (by decide)).2.1,
    (fetchFromBraveAPI_allResults_fields braveUpstreamSample braveRequestSample 3
       (braveConvert 0 braveUp1) (by decide)).2.2⟩,
   ⟨by decide,
    brave_results_zero_resolution_rank_last.2.2 [bR2, gR2] (by decide),
    by decide⟩⟩

/-- C7: the code serves an expired aggregated set instead of re-fetching.
With a stored set whose `expires_at` lies far in the past, a new request
for the same fingerprint performs no provider fan-out, leaves the database
unchanged, and answers from the stale stored items — `expires_at` is never
consulted by the read path. -/
theorem expired_aggregate_served_stale :
    staleMeta.expires_at < lateNow ∧
    (aggregatedSearch staleDB lateNow freshOutcomes sampleRequest none).didFetch
      = false ∧
    (aggregatedSearch staleDB lateNow freshOutcomes sampleRequest none).db
      = staleDB ∧
    responseResults
      (aggregatedSearch staleDB lateNow freshOutcomes sampleRequest none).response
      = [staleItem] := by
  refine ⟨by decide, rfl, rfl, rfl⟩

end GalacticParallax
